import Mathlib

/-!
Shallow embedding of the autonomous-revenue-growth orchestration core
(src/market_analyzer.py, src/pricing_strategist.py, src/revenue_engine.py).

Python floats are modelled by exact rationals (the idealised arithmetic the
spec describes); Python dictionaries with optional keys by structures with
Option fields; raised exceptions by the Except monad.
-/

namespace RevenueGrowth

/-- A Python exception value, as far as the orchestration core distinguishes
them: a ValueError carrying its message, a KeyError carrying the missing key,
or an arbitrary error raised by an external collaborator (identified by an
uninterpreted tag). -/
inductive PyErr where
  | valueError (msg : String)
  | keyError (key : String)
  | externalErr (tag : Nat)
  deriving DecidableEq, Repr

/-- The tabular structure returned by the data source.  The core only reads
the "news" column (src/revenue_engine.py line 40); everything else is opaque
and carried through untouched.  The "news" column may be absent, in which
case subscripting raises a KeyError. -/
structure DataFrame where
  news : Option String
  rest : Nat
  deriving DecidableEq, Repr

/-- A value returned by the external get_historical_data call: either an
actual DataFrame or some non-tabular value (src/market_analyzer.py line 42
checks isinstance(data, pd.DataFrame)). -/
inductive FetchVal where
  | dataframe (df : DataFrame)
  | nontabular (tag : Nat)
  deriving DecidableEq, Repr

/-- The mapping passed to PricingStrategist.calculate_optimal_price:
optional keys sentiment_score and forecast (src/pricing_strategist.py
lines 33-35 read both with .get and default 0). -/
structure MarketData where
  sentiment_score : Option ℚ
  forecast : Option ℚ
  deriving DecidableEq, Repr

/-- PricingStrategist state: the two mutable price bounds
(src/pricing_strategist.py lines 15-19). -/
structure PricingStrategist where
  min_price : ℚ
  max_price : ℚ
  deriving DecidableEq, Repr

/-- PricingStrategist.__init__ (src/pricing_strategist.py lines 15-19):
stores the two bounds verbatim, with no clamping.  The Python defaults are
min_price=0.9, max_price=1.1; see initDefault below. -/
def PricingStrategist.init (min_price max_price : ℚ) : PricingStrategist :=
  { min_price := min_price, max_price := max_price }

/-- PricingStrategist() with the Python default arguments 0.9 and 1.1. -/
def PricingStrategist.initDefault : PricingStrategist :=
  PricingStrategist.init 0.9 1.1

/-- PricingStrategist.calculate_optimal_price (src/pricing_strategist.py
lines 21-45).  The body is
  base_price       = 1.0
  sentiment_impact = market_data.get("sentiment_score", 0) * 0.1
  trend_impact     = (market_data.get("forecast", 0) > 0) * 0.05
  optimal_price    = max(min_price, min(base_price + sentiment_impact
                                          + trend_impact, max_price))
The try/except only logs and re-raises; on the well-typed inputs modelled
here no exception can arise, so the function is total. -/
def PricingStrategist.calculate_optimal_price
    (p : PricingStrategist) (market_data : MarketData) : ℚ :=
  let base_price : ℚ := 1.0
  let sentiment_impact := market_data.sentiment_score.getD 0 * 0.1
  let trend_impact : ℚ := if market_data.forecast.getD 0 > 0 then 0.05 else 0
  let optimal_price := base_price + sentiment_impact + trend_impact
  max p.min_price (min optimal_price p.max_price)

/-- PricingStrategist.update_constraints (src/pricing_strategist.py
lines 47-59): if new_min is provided, min_price becomes max(new_min, 0.0);
if new_max is provided, max_price becomes min(new_max, float("inf")), which
equals new_max for every finite value and is therefore modelled as new_max;
absent (None) arguments leave the corresponding bound unchanged.  No
validation relates the two bounds and nothing is raised. -/
def PricingStrategist.update_constraints
    (p : PricingStrategist) (new_min new_max : Option ℚ) : PricingStrategist :=
  let p1 := match new_min with
    | some nm => { p with min_price := max nm 0.0 }
    | none => p
  match new_max with
    | some nx => { p1 with max_price := nx }
    | none => p1

/-- The spec glossary's clamp: constrain a value to the closed interval
[lo, hi], computed (as the source does) as max lo (min x hi). -/
def clamp (x lo hi : ℚ) : ℚ :=
  max lo (min x hi)

/-- The external collaborators MarketAnalyzer delegates to, plus the ambient
wall clock: get_historical_data and analyze belong to the SentimentAnalyzer,
predict to the TrendPredictor (both undefined in the given source and
treated as opaque capabilities).  Each call either returns a value or raises
some Python error. -/
structure Env where
  get_historical_data : String → String → Except PyErr FetchVal
  analyze : String → Except PyErr ℚ
  predict : DataFrame → Except PyErr (List ℚ)
  now : Nat

/-- MarketAnalyzer.fetch_market_data (src/market_analyzer.py lines 25-47):
delegates to get_historical_data; raises
ValueError("Invalid data format returned from API.") when the returned
value is not a DataFrame; returns the DataFrame unchanged otherwise.  The
except clause only logs and re-raises, so any error from the underlying
call propagates unchanged, with no wrapping and no retry. -/
def fetch_market_data (env : Env) (market timeframe : String) :
    Except PyErr DataFrame :=
  match env.get_historical_data market timeframe with
  | .error e => .error e
  | .ok (.dataframe df) => .ok df
  | .ok (.nontabular _) =>
      .error (.valueError "Invalid data format returned from API.")

/-- MarketAnalyzer.analyze_sentiment (src/market_analyzer.py lines 49-60):
pure delegation to the external sentiment scorer, no local error
handling. -/
def analyze_sentiment (env : Env) (news_feed : String) : Except PyErr ℚ :=
  env.analyze news_feed

/-- The subscript data["news"] evaluated in src/revenue_engine.py line 40:
returns the news column, or raises a KeyError when the column is absent. -/
def DataFrame.getNews (df : DataFrame) : Except PyErr String :=
  match df.news with
  | some s => .ok s
  | none => .error (.keyError "news")

/-- np.mean as the source uses it (src/market_analyzer.py line 73): the sum
of the series divided by its length.  (Rational division by zero is 0 in
this model; numpy would produce NaN on an empty series.) -/
def npMean (xs : List ℚ) : ℚ :=
  xs.sum / xs.length

/-- np.std as the source uses it (src/market_analyzer.py line 74): the
square root of the mean of the squared deviations from the mean, i.e. the
population standard deviation (numpy default ddof = 0). -/
noncomputable def npStd (xs : List ℚ) : ℝ :=
  Real.sqrt ((npMean (xs.map fun x => (x - npMean xs) ^ 2) : ℚ) : ℝ)

/-- The arithmetic mean of a series, as the spec phrases the forecast
field. -/
def arithMean (xs : List ℚ) : ℚ :=
  xs.sum / xs.length

/-- Population variance of a series: the sum of squared deviations from the
arithmetic mean, divided by the number of elements. -/
def popVariance (xs : List ℚ) : ℚ :=
  (xs.map fun x => (x - arithMean xs) ^ 2).sum / xs.length

/-- Population standard deviation of a series, as the spec phrases the
confidence field: the square root of the population variance. -/
noncomputable def popStdDev (xs : List ℚ) : ℝ :=
  Real.sqrt ((popVariance xs : ℚ) : ℝ)

/-- The forecast summary returned by MarketAnalyzer.predict_market_trend:
forecast (a mean, exact in this model), confidence (a standard deviation,
an irrational real in general), and a creation timestamp. -/
structure Forecast where
  forecast : ℚ
  confidence : ℝ
  timestamp : Nat

/-- MarketAnalyzer.predict_market_trend (src/market_analyzer.py
lines 61-80): delegates to the external predictor, then packages
np.mean, np.std and the current time into a record; the except clause only
logs and re-raises, so any error from the predictor propagates unchanged
and no partial record is produced. -/
noncomputable def predict_market_trend (env : Env) (data : DataFrame) :
    Except PyErr Forecast :=
  match env.predict data with
  | .ok predicted_data =>
      .ok { forecast := npMean predicted_data,
            confidence := npStd predicted_data,
            timestamp := env.now }
  | .error e => .error e

/-- Which of the four cycle stages of run_revenue_cycle executed; a stage
counts as executed when its collaborator call is made (the price stage,
which has no collaborator, when calculate_optimal_price is entered). -/
structure Trace where
  fetch_ran : Bool
  sentiment_ran : Bool
  predict_ran : Bool
  price_ran : Bool
  deriving DecidableEq, Repr

/-- The cycle result record built at src/revenue_engine.py lines 53-56:
optimal_price, market_forecast, timestamp. -/
structure CycleResult where
  optimal_price : ℚ
  market_forecast : ℚ
  timestamp : Nat
  deriving DecidableEq, Repr

/-- RevenueEngine state (src/revenue_engine.py lines 16-20): a
MarketAnalyzer (standing for its collaborators, modelled by Env) and a
PricingStrategist. -/
structure RevenueEngine where
  market_analyzer : Env
  pricing_strategist : PricingStrategist

/-- RevenueEngine.__init__ (src/revenue_engine.py lines 16-20): constructs
the PricingStrategist with its default bounds. -/
def RevenueEngine.init (env : Env) : RevenueEngine :=
  { market_analyzer := env, pricing_strategist := PricingStrategist.initDefault }

/-- Modelled from the spec: the source file src/revenue_engine.py is
truncated inside the final return statement (it ends at the token datetime
on line 56), so the timestamp expression of the cycle result and any
trailing except clause are missing from the source.  The spec says the
cycle result carries "a timestamp" (its creation instant) and that a failing
stage's error "propagates to the caller" unchanged, so the timestamp is
modelled as the ambient clock value and propagation as an identity
re-raise. -/
def cycleTimestamp (env : Env) : Nat :=
  env.now

/-- RevenueEngine.run_revenue_cycle (src/revenue_engine.py lines 22-56),
instrumented with a Trace recording which stages executed.  The four stages
run strictly in sequence — fetch, sentiment, predict, price — and an error
raised at any point becomes the overall result, so the caller receives
either a complete CycleResult or the error, never both.  The subscript
data["news"] is evaluated while building the argument of the sentiment
stage.  The price stage is total on the well-typed mapping built at
lines 48-51, so it cannot raise in this model. -/
noncomputable def run_revenue_cycle (eng : RevenueEngine)
    (market timeframe : String) : Except PyErr CycleResult × Trace :=
  let env := eng.market_analyzer
  match fetch_market_data env market timeframe with
  | .error e => (.error e, ⟨true, false, false, false⟩)
  | .ok data =>
    match data.getNews with
    | .error e => (.error e, ⟨true, false, false, false⟩)
    | .ok news =>
      match analyze_sentiment env news with
      | .error e => (.error e, ⟨true, true, false, false⟩)
      | .ok sentiment_score =>
        match predict_market_trend env data with
        | .error e => (.error e, ⟨true, true, true, false⟩)
        | .ok forecast =>
          (.ok { optimal_price := eng.pricing_strategist.calculate_optimal_price
                    { sentiment_score := some sentiment_score,
                      forecast := some forecast.forecast },
                 market_forecast := forecast.forecast,
                 timestamp := cycleTimestamp env },
           ⟨true, true, true, true⟩)

/-- An environment whose data source returns a non-tabular value; all other
collaborator calls are inert. -/
def envNontabular : Env :=
  { get_historical_data := fun _ _ => .ok (.nontabular 0),
    analyze := fun _ => .ok 0,
    predict := fun _ => .ok [],
    now := 0 }

/-- An environment on which every stage succeeds: the data source returns a
DataFrame with news "up", sentiment is 1/2, the predicted series is
[1, 2, 3], and the clock reads 7. -/
def envPredict : Env :=
  { get_historical_data := fun _ _ => .ok (.dataframe ⟨some "up", 0⟩),
    analyze := fun _ => .ok (1 / 2),
    predict := fun _ => .ok [1, 2, 3],
    now := 7 }

/-- An environment whose sentiment scorer raises an external error with tag
42; fetching succeeds with a DataFrame whose news column is "bad news". -/
def envAnalyzeFail : Env :=
  { get_historical_data := fun _ _ => .ok (.dataframe ⟨some "bad news", 1⟩),
    analyze := fun _ => .error (.externalErr 42),
    predict := fun _ => .ok [1],
    now := 3 }

/-- Claim C1: for every input mapping m, calculate_optimal_price returns
clamp(1.0 + s*0.1 + t, min_price, max_price), where s is the mapping's
sentiment_score (default 0) and t is 0.05 exactly when the mapping's
forecast (default 0) is strictly positive. -/
theorem calculate_optimal_price_formula
    (p : PricingStrategist) (m : MarketData) :
    p.calculate_optimal_price m =
      clamp (1 + m.sentiment_score.getD 0 * 0.1 +
              (if m.forecast.getD 0 > 0 then 0.05 else 0))
        p.min_price p.max_price := by
  simp only [PricingStrategist.calculate_optimal_price, clamp]
  norm_num

/-- Claim C7: with the default bounds (0.9, 1.1) the price is exactly 1.0 on
{sentiment_score: 0, forecast: 0}, exactly 1.1 on
{sentiment_score: 1.0, forecast: 1} (raw 1.15 clamped to the max), and
exactly 0.9 on {sentiment_score: -1.0, forecast: 0} (a boundary value, not
clamped further). -/
theorem calculate_optimal_price_default_examples :
    PricingStrategist.initDefault.calculate_optimal_price
        { sentiment_score := some 0, forecast := some 0 } = 1.0 ∧
    PricingStrategist.initDefault.calculate_optimal_price
        { sentiment_score := some 1.0, forecast := some 1 } = 1.1 ∧
    PricingStrategist.initDefault.calculate_optimal_price
        { sentiment_score := some (-1.0), forecast := some 0 } = 0.9 := by
  refine ⟨?_, ?_, ?_⟩ <;>
    norm_num [PricingStrategist.calculate_optimal_price,
      PricingStrategist.initDefault, PricingStrategist.init]

/-- Claim C2 as frozen is false on the code: when the bounds are inverted
(here min_price = 2, max_price = 1) the price returned on the mapping
{sentiment_score: 0, forecast: 0} is 2, which exceeds max_price, so the
guarantee min_price <= price <= max_price fails with no precondition on the
bounds. -/
theorem calculate_optimal_price_bounds_cex :
    ¬ ((PricingStrategist.init 2 1).min_price ≤
          (PricingStrategist.init 2 1).calculate_optimal_price
            { sentiment_score := some 0, forecast := some 0 } ∧
        (PricingStrategist.init 2 1).calculate_optimal_price
            { sentiment_score := some 0, forecast := some 0 } ≤
          (PricingStrategist.init 2 1).max_price) := by
  norm_num [PricingStrategist.calculate_optimal_price, PricingStrategist.init]

/-- Claim C2, amended: for every sentiment score s in [-1, 1], every
forecast f, and every pair of bounds with min_price <= max_price, the value
returned by calculate_optimal_price satisfies
min_price <= price <= max_price. -/
theorem calculate_optimal_price_bounds
    (p : PricingStrategist) (s f : ℚ)
    (hs_lo : -1 ≤ s) (hs_hi : s ≤ 1) (hmm : p.min_price ≤ p.max_price) :
    p.min_price ≤
        p.calculate_optimal_price { sentiment_score := some s, forecast := some f } ∧
      p.calculate_optimal_price { sentiment_score := some s, forecast := some f } ≤
        p.max_price := by
  unfold PricingStrategist.calculate_optimal_price
  exact ⟨le_max_left _ _, max_le hmm (min_le_right _ _)⟩

/-- Witness for calculate_optimal_price_bounds at the default bounds,
s = 1/2, f = 3. -/
theorem calculate_optimal_price_bounds_witness :
    PricingStrategist.initDefault.min_price ≤
        PricingStrategist.initDefault.calculate_optimal_price
          { sentiment_score := some (1/2), forecast := some 3 } ∧
      PricingStrategist.initDefault.calculate_optimal_price
          { sentiment_score := some (1/2), forecast := some 3 } ≤
        PricingStrategist.initDefault.max_price :=
  calculate_optimal_price_bounds PricingStrategist.initDefault (1/2) 3
    (by norm_num) (by norm_num)
    (by norm_num [PricingStrategist.initDefault, PricingStrategist.init])

/-- Claim C5 as frozen is false on the code: __init__ stores its arguments
without clamping, so constructing a PricingStrategist with min_price = -5
yields a state whose min_price is negative. -/
theorem init_min_price_cex :
    ¬ (0 ≤ (PricingStrategist.init (-5) 1.1).min_price) := by
  norm_num [PricingStrategist.init]

/-- Claim C5, amended: min_price >= 0 holds after construction with the
default arguments, and whenever a state satisfies min_price >= 0 every call
to update_constraints preserves it; the constructor itself does not clamp
arbitrary arguments. -/
theorem min_price_nonneg_invariant
    (p : PricingStrategist) (new_min new_max : Option ℚ)
    (h : 0 ≤ p.min_price) :
    0 ≤ PricingStrategist.initDefault.min_price ∧
      0 ≤ (p.update_constraints new_min new_max).min_price := by
  constructor
  · norm_num [PricingStrategist.initDefault, PricingStrategist.init]
  · unfold PricingStrategist.update_constraints
    cases new_min with
    | none => cases new_max with
      | none => exact h
      | some nx => exact h
    | some nm => cases new_max with
      | none => show 0 ≤ max nm 0.0; norm_num [le_max_iff]
      | some nx => show 0 ≤ max nm 0.0; norm_num [le_max_iff]

/-- Witness for min_price_nonneg_invariant at the default state and the
update new_min = -7, new_max = None. -/
theorem min_price_nonneg_invariant_witness :
    0 ≤ PricingStrategist.initDefault.min_price ∧
      0 ≤ (PricingStrategist.initDefault.update_constraints
            (some (-7)) none).min_price :=
  min_price_nonneg_invariant PricingStrategist.initDefault (some (-7)) none
    (by norm_num [PricingStrategist.initDefault, PricingStrategist.init])

/-- Claim C6: update_constraints sets min_price to max(new_min, 0) when
new_min is provided (in particular new_min = -5 yields 0), sets max_price to
new_max (its clamp to <= +infinity is the identity on finite values) when
new_max is provided, and leaves either bound unchanged when the
corresponding argument is None; the function is total, so no error is
raised even when the resulting min_price exceeds max_price. -/
theorem update_constraints_spec
    (p : PricingStrategist) (nm nx : ℚ) :
    (p.update_constraints (some nm) (some nx)).min_price = max nm 0 ∧
    (p.update_constraints (some nm) (some nx)).max_price = nx ∧
    (p.update_constraints (some nm) none).min_price = max nm 0 ∧
    (p.update_constraints (some nm) none).max_price = p.max_price ∧
    (p.update_constraints none (some nx)).min_price = p.min_price ∧
    (p.update_constraints none (some nx)).max_price = nx ∧
    (p.update_constraints none none) = p ∧
    (p.update_constraints (some (-5)) none).min_price = 0 := by
  unfold PricingStrategist.update_constraints
  norm_num

/-- Claim C10: with inverted bounds (min_price > max_price) the clamp
max(min_price, min(raw, max_price)) always returns min_price, for every
input mapping. -/
theorem calculate_optimal_price_inverted_bounds
    (p : PricingStrategist) (m : MarketData) (h : p.max_price < p.min_price) :
    p.calculate_optimal_price m = p.min_price := by
  unfold PricingStrategist.calculate_optimal_price
  exact max_eq_left ((min_le_right _ _).trans h.le)

/-- Witness for calculate_optimal_price_inverted_bounds at the bounds
(2, 1) and the mapping {sentiment_score: 0, forecast: 0}. -/
theorem calculate_optimal_price_inverted_bounds_witness :
    (PricingStrategist.init 2 1).max_price < (PricingStrategist.init 2 1).min_price ∧
      (PricingStrategist.init 2 1).calculate_optimal_price
          { sentiment_score := some 0, forecast := some 0 } =
        (PricingStrategist.init 2 1).min_price :=
  ⟨by norm_num [PricingStrategist.init],
    calculate_optimal_price_inverted_bounds (PricingStrategist.init 2 1)
      { sentiment_score := some 0, forecast := some 0 }
      (by norm_num [PricingStrategist.init])⟩

/-- Claim C4 as frozen is false on the code at one point: on a data source
returning a non-tabular value the raised ValueError carries the message
"Invalid data format returned from API." (with a trailing period,
src/market_analyzer.py line 43), not the claimed message without the
period. -/
theorem fetch_market_data_message_cex :
    fetch_market_data envNontabular "BTC/USDT" "1D" =
        Except.error (.valueError "Invalid data format returned from API.") ∧
      fetch_market_data envNontabular "BTC/USDT" "1D" ≠
        Except.error (.valueError "Invalid data format returned from API") := by
  refine ⟨rfl, fun h => ?_⟩
  simp [fetch_market_data, envNontabular] at h

/-- Claim C4, amended: fetch_market_data raises a ValueError with message
"Invalid data format returned from API." (trailing period included) exactly
when get_historical_data returns a non-tabular value; a returned DataFrame
is passed through unchanged; and an error raised by the underlying call is
re-raised unchanged, with no wrapping and no retry. -/
theorem fetch_market_data_spec (env : Env) (market timeframe : String) :
    (∀ e, env.get_historical_data market timeframe = .error e →
        fetch_market_data env market timeframe = .error e) ∧
    (∀ df, env.get_historical_data market timeframe = .ok (.dataframe df) →
        fetch_market_data env market timeframe = .ok df) ∧
    (∀ k, env.get_historical_data market timeframe = .ok (.nontabular k) →
        fetch_market_data env market timeframe =
          .error (.valueError "Invalid data format returned from API.")) := by
  refine ⟨?_, ?_, ?_⟩ <;> intro x h <;> simp [fetch_market_data, h]

/-- Witness for fetch_market_data_spec on the non-tabular environment. -/
theorem fetch_market_data_spec_witness :
    fetch_market_data envNontabular "BTC/USDT" "1D" =
      Except.error (.valueError "Invalid data format returned from API.") :=
  (fetch_market_data_spec envNontabular "BTC/USDT" "1D").2.2 0 rfl

/-- np.std coincides with the population standard deviation of the
series. -/
theorem npStd_eq_popStdDev (xs : List ℚ) : npStd xs = popStdDev xs := by
  simp [npStd, popStdDev, npMean, popVariance, arithMean, List.length_map]

/-- Claim C8: whenever the external predictor returns a numeric series,
predict_market_trend returns a record whose forecast is the arithmetic mean
of the series, whose confidence is its population standard deviation, and
which carries the creation timestamp; whenever the predictor raises, the
same error is re-raised and no partial record is returned. -/
theorem predict_market_trend_spec (env : Env) (data : DataFrame) :
    (∀ s, env.predict data = .ok s →
        predict_market_trend env data =
          .ok { forecast := arithMean s, confidence := popStdDev s,
                timestamp := env.now }) ∧
    (∀ e, env.predict data = .error e →
        predict_market_trend env data = .error e) := by
  constructor
  · intro s h
    simp [predict_market_trend, h, npStd_eq_popStdDev, npMean, arithMean]
  · intro e h
    simp [predict_market_trend, h]

/-- Witness for predict_market_trend_spec on the all-success
environment. -/
theorem predict_market_trend_spec_witness :
    predict_market_trend envPredict ⟨some "up", 0⟩ =
      Except.ok { forecast := arithMean [1, 2, 3],
                  confidence := popStdDev [1, 2, 3], timestamp := 7 } :=
  (predict_market_trend_spec envPredict ⟨some "up", 0⟩).1 [1, 2, 3] rfl

/-- Claim C3: whichever stage of run_revenue_cycle fails first — fetch,
sentiment (including the data["news"] subscript feeding it), or predict —
the cycle results in that same error, the stages after the failing one do
not execute (their Trace flags are false), and no result record, not even a
partial one, reaches the caller.  The price stage is total in this model,
so it cannot fail. -/
theorem run_revenue_cycle_error_propagation (eng : RevenueEngine)
    (market timeframe : String) (e : PyErr) :
    (fetch_market_data eng.market_analyzer market timeframe = .error e →
        run_revenue_cycle eng market timeframe =
          (.error e, ⟨true, false, false, false⟩)) ∧
    (∀ df news, fetch_market_data eng.market_analyzer market timeframe = .ok df →
        df.getNews = .ok news →
        analyze_sentiment eng.market_analyzer news = .error e →
        run_revenue_cycle eng market timeframe =
          (.error e, ⟨true, true, false, false⟩)) ∧
    (∀ df news sc,
        fetch_market_data eng.market_analyzer market timeframe = .ok df →
        df.getNews = .ok news →
        analyze_sentiment eng.market_analyzer news = .ok sc →
        predict_market_trend eng.market_analyzer df = .error e →
        run_revenue_cycle eng market timeframe =
          (.error e, ⟨true, true, true, false⟩)) := by
  refine ⟨?_, ?_, ?_⟩
  · intro h
    simp [run_revenue_cycle, h]
  · intro df news h1 h2 h3
    simp [run_revenue_cycle, h1, h2, h3]
  · intro df news sc h1 h2 h3 h4
    simp [run_revenue_cycle, h1, h2, h3, h4]

/-- Witness for run_revenue_cycle_error_propagation: on the environment
whose sentiment scorer fails with external error 42, the cycle returns that
error and the predict and price stages never run. -/
theorem run_revenue_cycle_error_propagation_witness :
    run_revenue_cycle (RevenueEngine.init envAnalyzeFail) "BTC/USDT" "1D" =
      (Except.error (.externalErr 42), ⟨true, true, false, false⟩) :=
  (run_revenue_cycle_error_propagation (RevenueEngine.init envAnalyzeFail)
      "BTC/USDT" "1D" (.externalErr 42)).2.1
    ⟨some "bad news", 1⟩ "bad news" rfl rfl rfl

/-- Claim C9: when all four stages succeed, run_revenue_cycle returns a
complete result record holding the optimal price computed from the
sentiment score and the forecast, the forecast value (the arithmetic mean of
the predicted series), and a timestamp. -/
theorem run_revenue_cycle_success (eng : RevenueEngine)
    (market timeframe : String) (df : DataFrame) (news : String)
    (sc : ℚ) (s : List ℚ)
    (h1 : fetch_market_data eng.market_analyzer market timeframe = .ok df)
    (h2 : df.getNews = .ok news)
    (h3 : analyze_sentiment eng.market_analyzer news = .ok sc)
    (h4 : eng.market_analyzer.predict df = .ok s) :
    run_revenue_cycle eng market timeframe =
      (.ok { optimal_price := eng.pricing_strategist.calculate_optimal_price
                { sentiment_score := some sc, forecast := some (arithMean s) },
             market_forecast := arithMean s,
             timestamp := cycleTimestamp eng.market_analyzer },
       ⟨true, true, true, true⟩) := by
  simp [run_revenue_cycle, h1, h2, h3, predict_market_trend, h4,
    npMean, arithMean]

/-- Witness for run_revenue_cycle_success on the all-success
environment. -/
theorem run_revenue_cycle_success_witness :
    run_revenue_cycle (RevenueEngine.init envPredict) "BTC/USDT" "1D" =
      (Except.ok
          { optimal_price :=
              (RevenueEngine.init envPredict).pricing_strategist.calculate_optimal_price
                { sentiment_score := some (1 / 2),
                  forecast := some (arithMean [1, 2, 3]) },
            market_forecast := arithMean [1, 2, 3],
            timestamp := cycleTimestamp envPredict },
       ⟨true, true, true, true⟩) :=
  run_revenue_cycle_success (RevenueEngine.init envPredict) "BTC/USDT" "1D"
    ⟨some "up", 0⟩ "up" (1 / 2) [1, 2, 3] rfl rfl rfl rfl

end RevenueGrowth
